import Mathlib

/-!
Verification development for the `personal_planner` repository.

Shallow embedding conventions:
* Python dicts with a known shape become Lean structures; a key that may be
  absent becomes an `Option` field (`none` = the key is missing / the value is
  `None`).
* HTTP requests are modelled by oracle functions passed as parameters; a
  request (or JSON decode) that raises is the oracle returning `none`.
* Python numbers are modelled as exact rationals (`ℚ`).
* A Python function that can raise an uncaught exception returns
  `Except String _`; a function whose body catches every exception returns a
  plain value.
* Wall-clock datetimes (all in one fixed target timezone offset) are modelled
  by `LocalDT`; comparison of timezone-aware datetimes with equal offsets is
  wall-clock comparison.
-/

/-- A Motion task, as the fields `MotionAPI` reads off the JSON task dict.
`none` models an absent key / JSON `null`. -/
structure MTask where
  name : Option String := none
  description : Option String := none
  duration : Option String := none
  scheduledStart : Option String := none
  dueDate : Option String := none
  labels : List (Option String) := []
deriving DecidableEq, Repr

/-- One page of the Motion `/v1/tasks` response: the `tasks` list
(`response.get("tasks", [])`, so a missing key is the empty list) and the
`meta.nextCursor` field (`none` when `meta` or `nextCursor` is missing). -/
structure Page where
  tasks : List MTask := []
  nextCursor : Option String := none
deriving DecidableEq, Repr

/-- The body of the `while True` loop of `MotionAPI.fetch_task_data`.
`server c` is the page the API returns for cursor `c` (`none` = the request or
`json.loads` raises, caught by the surrounding `try`, which returns `[]`).
`fuel` bounds the number of iterations; running out (`none` result) models a
non-terminating loop.  A `nextCursor` of `""` is falsy in Python, so it stops
the loop just like a missing cursor. -/
def fetchLoop (server : Option String → Option Page) :
    Nat → Option String → List MTask → Option (List MTask)
  | 0, _, _ => none
  | fuel + 1, cursor, acc =>
    match server cursor with
    | none => some []
    | some resp =>
      let acc' := acc ++ resp.tasks
      match resp.nextCursor with
      | none => some acc'
      | some nc => if nc = "" then some acc' else fetchLoop server fuel (some nc) acc'

/-- Embeds `MotionAPI.fetch_task_data`: run the pagination loop from the initial
`cursor = None` with an empty accumulator. -/
def fetch_task_data (server : Option String → Option Page) (fuel : Nat) :
    Option (List MTask) :=
  fetchLoop server fuel none []

/-- Predicate `chainOk server c ps` says the pages `ps` are exactly the cursor chain the
server serves starting from cursor `c`: each page is returned for the current
cursor, every page but the last carries a truthy `nextCursor`, and the last
page has no (or an empty, hence falsy) cursor. -/
def chainOk (server : Option String → Option Page) :
    Option String → List Page → Bool
  | _, [] => false
  | c, p :: rest =>
    decide (server c = some p) &&
      match p.nextCursor with
      | none => rest.isEmpty
      | some nc => if nc = "" then rest.isEmpty else chainOk server (some nc) rest

/-- Predicate `chainFails server c ps` says the server serves the pages `ps` (each with a
truthy `nextCursor`) starting from cursor `c` and then the next request fails
(raises). -/
def chainFails (server : Option String → Option Page) :
    Option String → List Page → Bool
  | c, [] => (server c).isNone
  | c, p :: rest =>
    decide (server c = some p) &&
      match p.nextCursor with
      | none => false
      | some nc => decide (nc ≠ "") && chainFails server (some nc) rest

lemma fetchLoop_chainOk (server : Option String → Option Page) :
    ∀ (ps : List Page) (c : Option String) (acc : List MTask),
      chainOk server c ps = true →
      fetchLoop server ps.length c acc = some (acc ++ (ps.map Page.tasks).flatten) := by
  intro ps
  induction ps with
  | nil => intro c acc h; simp [chainOk] at h
  | cons p rest ih =>
    intro c acc h
    rw [chainOk] at h
    rw [Bool.and_eq_true] at h
    obtain ⟨hs, hrest⟩ := h
    rw [decide_eq_true_eq] at hs
    rw [List.length_cons]
    rw [fetchLoop]
    rw [hs]
    simp only
    cases hnc : p.nextCursor with
    | none =>
      rw [hnc] at hrest
      simp only [List.isEmpty_iff] at hrest
      subst hrest
      simp
    | some nc =>
      rw [hnc] at hrest
      by_cases hne : nc = ""
      · subst hne
        simp at hrest
        subst hrest
        simp
      · simp only [if_neg hne] at hrest
        simp only [if_neg hne]
        rw [ih (some nc) (acc ++ p.tasks) hrest]
        simp

lemma fetchLoop_chainFails (server : Option String → Option Page) :
    ∀ (ps : List Page) (c : Option String) (acc : List MTask),
      chainFails server c ps = true →
      fetchLoop server (ps.length + 1) c acc = some [] := by
  intro ps
  induction ps with
  | nil =>
    intro c acc h
    rw [chainFails] at h
    rw [Option.isNone_iff_eq_none] at h
    rw [fetchLoop, h]
  | cons p rest ih =>
    intro c acc h
    rw [chainFails] at h
    rw [Bool.and_eq_true] at h
    obtain ⟨hs, hrest⟩ := h
    rw [decide_eq_true_eq] at hs
    rw [List.length_cons]
    rw [fetchLoop]
    rw [hs]
    simp only
    cases hnc : p.nextCursor with
    | none => rw [hnc] at hrest; exact absurd hrest (by simp)
    | some nc =>
      rw [hnc] at hrest
      rw [Bool.and_eq_true, decide_eq_true_eq] at hrest
      obtain ⟨hne, hrest⟩ := hrest
      simp only [if_neg hne]
      exact ih (some nc) (acc ++ p.tasks) hrest

/-- C1: for every cursor chain of `k` pages served by the API,
`MotionAPI.fetch_task_data` terminates (with fuel `k`) and returns exactly the
concatenation of the pages' `tasks` lists, in page order. -/
theorem c1_fetch_task_data_concatenates_pages
    (server : Option String → Option Page) (ps : List Page)
    (h : chainOk server none ps = true) :
    fetch_task_data server ps.length = some ((ps.map Page.tasks).flatten) := by
  unfold fetch_task_data
  rw [fetchLoop_chainOk server ps none [] h]
  simp

/-- Witness for C1: the two-page scenario from the spec — page 1 is
`{"tasks":[{"name":"A"}],"meta":{"nextCursor":"X"}}`, page 2 is
`{"tasks":[{"name":"B"}],"meta":{}}` — yields the single list `[A, B]`. -/
theorem c1_witness :
    chainOk
        (fun c => if c = none then some ⟨[{ name := some "A" }], some "X"⟩
                  else if c = some "X" then some ⟨[{ name := some "B" }], none⟩
                  else none)
        none
        [⟨[{ name := some "A" }], some "X"⟩, ⟨[{ name := some "B" }], none⟩] = true
    ∧ fetch_task_data
        (fun c => if c = none then some ⟨[{ name := some "A" }], some "X"⟩
                  else if c = some "X" then some ⟨[{ name := some "B" }], none⟩
                  else none)
        2 = some [{ name := some "A" }, { name := some "B" }] :=
  ⟨by decide,
   c1_fetch_task_data_concatenates_pages
     (fun c => if c = none then some ⟨[{ name := some "A" }], some "X"⟩
               else if c = some "X" then some ⟨[{ name := some "B" }], none⟩
               else none)
     [⟨[{ name := some "A" }], some "X"⟩, ⟨[{ name := some "B" }], none⟩]
     (by decide)⟩

/-- C9: if some page request (or JSON decode) fails after one or more pages
were fetched successfully, `MotionAPI.fetch_task_data` returns the empty list,
discarding all previously fetched pages — never a partial prefix. -/
theorem c9_fetch_task_data_midchain_failure_returns_empty
    (server : Option String → Option Page) (ps : List Page)
    (_hne : 0 < ps.length)
    (h : chainFails server none ps = true) :
    fetch_task_data server (ps.length + 1) = some [] := by
  unfold fetch_task_data
  exact fetchLoop_chainFails server ps none [] h

/-- Witness for C9: one page with tasks `[A]` is fetched, the request for the
second page raises — the result is `[]`, not `[A]`. -/
theorem c9_witness :
    0 < [(⟨[{ name := some "A" }], some "X"⟩ : Page)].length
    ∧ fetch_task_data
        (fun c => if c = none then some ⟨[{ name := some "A" }], some "X"⟩ else none)
        2 = some [] :=
  ⟨by decide,
   c9_fetch_task_data_midchain_failure_returns_empty
     (fun c => if c = none then some ⟨[{ name := some "A" }], some "X"⟩ else none)
     [⟨[{ name := some "A" }], some "X"⟩]
     (by decide) (by decide)⟩

/-- A wall-clock datetime in the (fixed) target timezone: a day index plus a
time of day.  `datetime.replace` keeps a field it is not given, so
`microsecond` is a separate field — `replace(hour=0, minute=0, second=0)` in
the source does NOT zero it. -/
structure LocalDT where
  day : Int
  hour : Nat := 0
  minute : Nat := 0
  second : Nat := 0
  microsecond : Nat := 0
deriving DecidableEq, Repr

/-- Total microseconds, the order-embedding used to compare datetimes. -/
def LocalDT.toMicro (d : LocalDT) : Int :=
  ((((d.day * 24 + d.hour) * 60 + d.minute) * 60 + d.second) * 1000000) + d.microsecond

/-- Python `<=` on timezone-aware datetimes with equal offsets. -/
def LocalDT.le (a b : LocalDT) : Bool := decide (a.toMicro ≤ b.toMicro)

/-- Embeds `dt.replace(hour=0, minute=0, second=0)` — note the microsecond survives. -/
def LocalDT.floorHMS (d : LocalDT) : LocalDT :=
  { d with hour := 0, minute := 0, second := 0 }

/-- Embeds `dt + timedelta(days=n)`. -/
def LocalDT.addDays (d : LocalDT) (n : Nat) : LocalDT :=
  { d with day := d.day + n }

/-- The filter applied by `MotionAPI.get_task_data_n_days_ahead` to the fetched
task list.  `parse s` is `MotionAPI._parse_date(s, timezone)`: the
`scheduledStart` instant converted to the target timezone; `now` is
`datetime.now(timezone)`.  A missing `scheduledStart` or the falsy `""` skips
the task; otherwise the task is kept when
`now.replace(hour=0,minute=0,second=0) <= parse s <= (now + n days).replace(hour=0,minute=0,second=0)`. -/
def get_task_data_n_days_ahead (parse : String → LocalDT) (now : LocalDT)
    (n : Nat) (tasks : List MTask) : List MTask :=
  tasks.filter fun t =>
    match t.scheduledStart with
    | none => false
    | some s =>
      if s = "" then false
      else
        LocalDT.le now.floorHMS (parse s) && LocalDT.le (parse s) (now.addDays n).floorHMS

/-- Modelled from the spec's words for claim C2 (NOT from the source): a task
is in the window when its scheduled-start instant, converted to the target
timezone and truncated to a DATE, falls in the closed interval
`[today, today + n]`. -/
def specC2InWindow (parse : String → LocalDT) (now : LocalDT) (n : Nat)
    (t : MTask) : Bool :=
  match t.scheduledStart with
  | none => false
  | some s => decide (now.day ≤ (parse s).day) && decide ((parse s).day ≤ now.day + n)

/-- Counterexample for C2: `now` is day 0 at 12:00, `n = 1`, and a task is
scheduled on day 1 at 10:00.  Its date (day 1) lies in `[today, today + 1]`,
so the claim says it appears in the result; the code compares the full
datetime against `(now + 1 day).replace(hour=0,minute=0,second=0)` = day 1
00:00:00, so it is excluded: the result is empty. -/
theorem c2_counterexample :
    specC2InWindow (fun _ => ⟨1, 10, 0, 0, 0⟩) ⟨0, 12, 0, 0, 0⟩ 1
        { scheduledStart := some "2024-01-02T10:00:00Z" } = true
    ∧ get_task_data_n_days_ahead (fun _ => ⟨1, 10, 0, 0, 0⟩) ⟨0, 12, 0, 0, 0⟩ 1
        [{ scheduledStart := some "2024-01-02T10:00:00Z" }] = [] := by
  constructor
  · decide
  · decide

/-- C2 (amended): a task appears in `get_task_data_n_days_ahead`'s result iff
it is among the fetched tasks, has a truthy (present, non-empty)
`scheduledStart`, and its instant converted to the target timezone lies in the
closed datetime interval from `now.replace(hour=0,minute=0,second=0)` to
`(now + n days).replace(hour=0,minute=0,second=0)` — not the date-truncated
interval `[today, today+n]` of the original claim.  Tasks lacking
`scheduledStart` never appear. -/
theorem c2_window_filter_characterization
    (parse : String → LocalDT) (now : LocalDT) (n : Nat)
    (tasks : List MTask) (t : MTask) :
    t ∈ get_task_data_n_days_ahead parse now n tasks ↔
      t ∈ tasks ∧ ∃ s, t.scheduledStart = some s ∧ s ≠ ""
        ∧ LocalDT.le now.floorHMS (parse s) = true
        ∧ LocalDT.le (parse s) (now.addDays n).floorHMS = true := by
  unfold get_task_data_n_days_ahead
  rw [List.mem_filter]
  constructor
  · rintro ⟨hmem, hkeep⟩
    refine ⟨hmem, ?_⟩
    cases hss : t.scheduledStart with
    | none => rw [hss] at hkeep; simp at hkeep
    | some s =>
      rw [hss] at hkeep
      by_cases hse : s = ""
      · simp only [if_pos hse] at hkeep; exact absurd hkeep (by simp)
      · simp only [if_neg hse] at hkeep
        rw [Bool.and_eq_true] at hkeep
        exact ⟨s, rfl, hse, hkeep.1, hkeep.2⟩
  · rintro ⟨hmem, s, hss, hse, h1, h2⟩
    refine ⟨hmem, ?_⟩
    rw [hss]
    simp only [if_neg hse]
    rw [Bool.and_eq_true]
    exact ⟨h1, h2⟩

/-- CPython `round(x, 2)` rounds half to even; the scaled integer rounding. -/
def roundHalfEven (x : ℚ) : Int :=
  let f : Int := ⌊x⌋
  if x - f < 1 / 2 then f
  else if 1 / 2 < x - f then f + 1
  else if f % 2 = 0 then f else f + 1

/-- Embeds `round(x, 2)` on exact rationals. -/
def round2 (x : ℚ) : ℚ := (roundHalfEven (x * 100) : ℚ) / 100

/-- The Garmin user-summary response, as the fields
`FitnessAPI.get_clean_data_by_date` reads (`none` = key absent / `null`). -/
structure FitnessRaw where
  totalSteps : Option ℚ := none
  dailyStepGoal : Option ℚ := none
  totalDistanceMeters : Option ℚ := none
  activeKilocalories : Option ℚ := none
  restingHeartRate : Option ℚ := none
  minHeartRate : Option ℚ := none
  maxHeartRate : Option ℚ := none
  lastSevenDaysAvgRestingHeartRate : Option ℚ := none
  averageStressLevel : Option ℚ := none
  maxStressLevel : Option ℚ := none
  sleepingSeconds : Option ℚ := none
  floorsAscended : Option ℚ := none
  sedentarySeconds : Option ℚ := none
  avgWakingRespirationValue : Option ℚ := none
  highestRespirationValue : Option ℚ := none
  lowestRespirationValue : Option ℚ := none
  latestRespirationValue : Option ℚ := none
  stressQualifier : Option String := none
  stressPercentage : Option ℚ := none
  restStressPercentage : Option ℚ := none
  activityStressPercentage : Option ℚ := none
  uncategorizedStressPercentage : Option ℚ := none
  lowStressPercentage : Option ℚ := none
  mediumStressPercentage : Option ℚ := none
  highStressPercentage : Option ℚ := none
deriving DecidableEq, Repr

/-- An empty dict: what `fetch_user_data_by_date` returns when the Garmin call
raises. -/
def emptyFitnessRaw : FitnessRaw := {}

/-- The `respiration_rate` sub-dict of the extracted data. -/
structure RespirationRate where
  average : Option ℚ
  highest : Option ℚ
  lowest : Option ℚ
  latest : Option ℚ
deriving DecidableEq, Repr

/-- The `proportion_of_total_stress` sub-dict. -/
structure StressProportion where
  rest_stress : Option ℚ
  activity_stress : Option ℚ
  uncategorized_stress : Option ℚ
  low_stress : Option ℚ
  medium_stress : Option ℚ
  high_stress : Option ℚ
deriving DecidableEq, Repr

/-- The `stress_data` sub-dict. -/
structure StressData where
  stress_qualifier : Option String
  total_stress_percentage : Option ℚ
  proportion_of_total_stress : StressProportion
deriving DecidableEq, Repr

/-- The dict built by `FitnessAPI.get_clean_data_by_date`. -/
structure CleanFitness where
  total_steps : Option ℚ
  daily_steps_goals : Option ℚ
  total_distance_kilometers : Option ℚ
  active_kilocalories : Option ℚ
  resting_heart_rate : Option ℚ
  min_heart_rate : Option ℚ
  max_heart_rate : Option ℚ
  seven_day_average_resting_heart_rate : Option ℚ
  average_stress_level : Option ℚ
  max_stress_level : Option ℚ
  sleep_duration_hours : Option ℚ
  floors_ascended : Option ℚ
  sedentary_minutes : Option ℚ
  respiration_rate : RespirationRate
  stress_data : StressData
deriving DecidableEq, Repr

/-- The pattern `round(response.get(k) / denom, 2) if response.get(k) else
None`: Python truthiness sends both a missing key and a present `0` to
`None`. -/
def convIfTruthy (v : Option ℚ) (denom : ℚ) : Option ℚ :=
  match v with
  | none => none
  | some x => if x = 0 then none else some (round2 (x / denom))

/-- The extraction body of `FitnessAPI.get_clean_data_by_date`, applied to the
(already fetched) response dict. -/
def extract_fitness_fields (response : FitnessRaw) : CleanFitness :=
  { total_steps := response.totalSteps
    daily_steps_goals := response.dailyStepGoal
    total_distance_kilometers := convIfTruthy response.totalDistanceMeters 1000
    active_kilocalories := response.activeKilocalories
    resting_heart_rate := response.restingHeartRate
    min_heart_rate := response.minHeartRate
    max_heart_rate := response.maxHeartRate
    seven_day_average_resting_heart_rate := response.lastSevenDaysAvgRestingHeartRate
    average_stress_level := response.averageStressLevel
    max_stress_level := response.maxStressLevel
    sleep_duration_hours := convIfTruthy response.sleepingSeconds 3600
    floors_ascended := response.floorsAscended
    sedentary_minutes := convIfTruthy response.sedentarySeconds 60
    respiration_rate :=
      { average := response.avgWakingRespirationValue
        highest := response.highestRespirationValue
        lowest := response.lowestRespirationValue
        latest := response.latestRespirationValue }
    stress_data :=
      { stress_qualifier := response.stressQualifier
        total_stress_percentage := response.stressPercentage
        proportion_of_total_stress :=
          { rest_stress := response.restStressPercentage
            activity_stress := response.activityStressPercentage
            uncategorized_stress := response.uncategorizedStressPercentage
            low_stress := response.lowStressPercentage
            medium_stress := response.mediumStressPercentage
            high_stress := response.highStressPercentage } } }

/-- Embeds `FitnessAPI.fetch_user_data_by_date`: `fetch d` is the Garmin call for day
`d` (`none` = it raises); the `except` branch returns the empty dict. -/
def fetch_user_data_by_date (fetch : String → Option FitnessRaw) (d : String) :
    FitnessRaw :=
  (fetch d).getD emptyFitnessRaw

/-- Embeds `FitnessAPI.get_clean_data_by_date`. -/
def get_clean_data_by_date (fetch : String → Option FitnessRaw) (d : String) :
    CleanFitness :=
  extract_fitness_fields (fetch_user_data_by_date fetch d)

/-- Embeds `FitnessAPI.get_clean_data`: one entry per day `i = 0..6`, keyed by
`dayStr i = (date.today() - timedelta(days=i)).isoformat()`, in insertion
order. -/
def get_clean_data (fetch : String → Option FitnessRaw) (dayStr : Nat → String) :
    List (String × CleanFitness) :=
  (List.range 7).map fun i => (dayStr i, get_clean_data_by_date fetch (dayStr i))

/-- C3: a fetch failure on one day is isolated.  For any run `f` (where
`f d = none` means the Garmin call for day `d` raised) and any failure-free
run `g`: a day on which `f` returned what `g` returns produces an identical
entry in `get_clean_data`'s result, and a day on which `f` failed produces the
entry extracted from the empty dict (all fields `None`) — the aggregation over
the other days never crashes or changes. -/
theorem c3_fitness_daily_failures_isolated
    (f g : String → Option FitnessRaw) (dayStr : Nat → String)
    (i : Nat) (hi : i < 7) :
    (f (dayStr i) = g (dayStr i) →
      (get_clean_data f dayStr)[i]? = (get_clean_data g dayStr)[i]?)
    ∧ (f (dayStr i) = none →
      (get_clean_data f dayStr)[i]? =
        some (dayStr i, extract_fitness_fields emptyFitnessRaw)) := by
  constructor
  · intro hagree
    unfold get_clean_data
    rw [List.getElem?_map, List.getElem?_map, List.getElem?_range hi]
    simp only [Option.map_some']
    unfold get_clean_data_by_date fetch_user_data_by_date
    rw [hagree]
  · intro hfail
    unfold get_clean_data
    rw [List.getElem?_map, List.getElem?_range hi]
    simp only [Option.map_some']
    unfold get_clean_data_by_date fetch_user_data_by_date
    rw [hfail]
    rfl

/-- Witness for C3: the fetch for day "3" raises, all other days return the
empty summary; day 2's entry matches the failure-free run and day 3 degrades
to the all-`None` entry. -/
theorem c3_witness :
    ((fun d => if d = "3" then none else some emptyFitnessRaw) (toString 2) =
        (fun _ => some emptyFitnessRaw) (toString 2)
      → (get_clean_data (fun d => if d = "3" then none else some emptyFitnessRaw) toString)[2]? =
        (get_clean_data (fun _ => some emptyFitnessRaw) toString)[2]?)
    ∧ ((fun d => if d = "3" then none else some emptyFitnessRaw) (toString 3) = none
      → (get_clean_data (fun d => if d = "3" then none else some emptyFitnessRaw) toString)[3]? =
        some (toString 3, extract_fitness_fields emptyFitnessRaw)) :=
  ⟨(c3_fitness_daily_failures_isolated
      (fun d => if d = "3" then none else some emptyFitnessRaw)
      (fun _ => some emptyFitnessRaw) toString 2 (by decide)).1,
   (c3_fitness_daily_failures_isolated
      (fun d => if d = "3" then none else some emptyFitnessRaw)
      (fun _ => some emptyFitnessRaw) toString 3 (by decide)).2⟩

/-- Counterexample for C6: a record with `totalDistanceMeters: 0` (the key
present).  The claim's conversion rule (divide by 1000, round to 2 decimals)
predicts `total_distance_kilometers = round2(0/1000) = 0.0`; the code's
truthiness guard (`if response.get('totalDistanceMeters')`) yields `None`
instead. -/
theorem c6_counterexample :
    (extract_fitness_fields { totalDistanceMeters := some 0 }).total_distance_kilometers
      ≠ some (round2 (0 / 1000)) := by
  decide

/-- C6 (amended): for a PRESENT and NONZERO (truthy) numerator the code
divides by 1000 / 3600 / 60 and rounds to 2 decimals, and an ABSENT numerator
yields an absent (`None`) derived value rather than a computed zero or an
error; a present zero also yields `None` (the truthiness guard), which is the
one departure from the original claim. -/
theorem c6_unit_conversions (r : FitnessRaw) (v : ℚ) :
    (r.totalDistanceMeters = some v → v ≠ 0 →
      (extract_fitness_fields r).total_distance_kilometers = some (round2 (v / 1000)))
    ∧ (r.totalDistanceMeters = none →
      (extract_fitness_fields r).total_distance_kilometers = none)
    ∧ (r.sleepingSeconds = some v → v ≠ 0 →
      (extract_fitness_fields r).sleep_duration_hours = some (round2 (v / 3600)))
    ∧ (r.sleepingSeconds = none →
      (extract_fitness_fields r).sleep_duration_hours = none)
    ∧ (r.sedentarySeconds = some v → v ≠ 0 →
      (extract_fitness_fields r).sedentary_minutes = some (round2 (v / 60)))
    ∧ (r.sedentarySeconds = none →
      (extract_fitness_fields r).sedentary_minutes = none) := by
  refine ⟨?_, ?_, ?_, ?_, ?_, ?_⟩ <;> intro h
  · intro hv; simp [extract_fitness_fields, convIfTruthy, h, hv]
  · simp [extract_fitness_fields, convIfTruthy, h]
  · intro hv; simp [extract_fitness_fields, convIfTruthy, h, hv]
  · simp [extract_fitness_fields, convIfTruthy, h]
  · intro hv; simp [extract_fitness_fields, convIfTruthy, h, hv]
  · simp [extract_fitness_fields, convIfTruthy, h]

/-- Witness for C6: `totalDistanceMeters: 5000` yields
`total_distance_kilometers: 5.0`, `sleepingSeconds: 7200` yields `2.0` hours,
`sedentarySeconds: 90` yields `1.5` minutes, and with the keys absent the
derived values are absent. -/
theorem c6_witness :
    (extract_fitness_fields { totalDistanceMeters := some 5000 }).total_distance_kilometers = some 5
    ∧ (extract_fitness_fields { sleepingSeconds := some 7200 }).sleep_duration_hours = some 2
    ∧ (extract_fitness_fields { sedentarySeconds := some 90 }).sedentary_minutes = some (3 / 2)
    ∧ (extract_fitness_fields {}).total_distance_kilometers = none := by
  refine ⟨?_, ?_, ?_, ?_⟩
  · rw [(c6_unit_conversions { totalDistanceMeters := some 5000 } 5000).1 rfl (by norm_num)]
    norm_num [round2, roundHalfEven]
  · rw [(c6_unit_conversions { sleepingSeconds := some 7200 } 7200).2.2.1 rfl (by norm_num)]
    norm_num [round2, roundHalfEven]
  · rw [(c6_unit_conversions { sedentarySeconds := some 90 } 90).2.2.2.2.1 rfl (by norm_num)]
    norm_num [round2, roundHalfEven]
  · exact (c6_unit_conversions {} 0).2.1 rfl

/-- C10: a present zero in `totalDistanceMeters`, `sleepingSeconds` or
`sedentarySeconds` is falsy in Python, so the derived field is `None`, exactly
as for a missing key — a present zero input is indistinguishable from a
missing one in the output. -/
theorem c10_zero_inputs_become_absent (r : FitnessRaw) :
    (r.totalDistanceMeters = some 0 →
      (extract_fitness_fields r).total_distance_kilometers = none)
    ∧ (r.sleepingSeconds = some 0 →
      (extract_fitness_fields r).sleep_duration_hours = none)
    ∧ (r.sedentarySeconds = some 0 →
      (extract_fitness_fields r).sedentary_minutes = none) := by
  refine ⟨?_, ?_, ?_⟩ <;> intro h <;>
    simp [extract_fitness_fields, convIfTruthy, h]

/-- Witness for C10: a record with all three inputs present and equal to `0`
produces `None` for all three derived fields. -/
theorem c10_witness :
    (extract_fitness_fields
        { totalDistanceMeters := some 0, sleepingSeconds := some 0,
          sedentarySeconds := some 0 }).total_distance_kilometers = none
    ∧ (extract_fitness_fields
        { totalDistanceMeters := some 0, sleepingSeconds := some 0,
          sedentarySeconds := some 0 }).sleep_duration_hours = none
    ∧ (extract_fitness_fields
        { totalDistanceMeters := some 0, sleepingSeconds := some 0,
          sedentarySeconds := some 0 }).sedentary_minutes = none :=
  ⟨(c10_zero_inputs_become_absent
      { totalDistanceMeters := some 0, sleepingSeconds := some 0,
        sedentarySeconds := some 0 }).1 rfl,
   (c10_zero_inputs_become_absent
      { totalDistanceMeters := some 0, sleepingSeconds := some 0,
        sedentarySeconds := some 0 }).2.1 rfl,
   (c10_zero_inputs_become_absent
      { totalDistanceMeters := some 0, sleepingSeconds := some 0,
        sedentarySeconds := some 0 }).2.2 rfl⟩

/-- One entry of a `weather` array: `{'description': ...}`. -/
structure WDesc where
  description : String
deriving DecidableEq, Repr

/-- The `current` section of the One Call payload, as
`WeatherAPI.format_current_weather` reads it (all keys accessed directly, so
modelled as total fields; `weather` is indexed at `[0]`). -/
structure CurrentW where
  temp : ℚ
  weather : List WDesc
  sunrise : Int
  sunset : Int
  wind_speed : ℚ
  humidity : ℚ
deriving DecidableEq, Repr

/-- The `temp` sub-dict of a daily forecast entry. -/
structure DailyTemp where
  max : ℚ
  min : ℚ
deriving DecidableEq, Repr

/-- One entry of the `daily` array. -/
structure DailyF where
  temp : DailyTemp
  weather : List WDesc
deriving DecidableEq, Repr

/-- One entry of the `alerts` array (`.get` / `in`-guarded keys are
`Option`). -/
structure AlertIn where
  event : Option String := none
  description : Option String := none
  start : Option Int := none
  end_ : Option Int := none
deriving DecidableEq, Repr

/-- The value under the `daily` key: either actually a list (passes
`isinstance(..., list)`) or some non-list JSON value. -/
inductive DailyVal where
  | arr (l : List DailyF)
  | notList
deriving DecidableEq, Repr

/-- A One Call API payload, as `WeatherAPI.extract_relevant_data` reads it. -/
structure WPayload where
  current : Option CurrentW := none
  daily : Option DailyVal := none
  alerts : Option (List AlertIn) := none
deriving DecidableEq, Repr

/-- Output of `format_current_weather`. -/
structure CurrentFmt where
  temperature : String
  description : String
  sunrise : String
  sunset : String
  wind_speed : String
  humidity : String
deriving DecidableEq, Repr

/-- Output of `format_daily_forecast`. -/
structure ForecastFmt where
  max_temp : String
  min_temp : String
  conditions : String
deriving DecidableEq, Repr

/-- Output of one `format_alerts` entry. -/
structure AlertFmt where
  title : Option String
  description : Option String
  start : Option String
  end_ : Option String
deriving DecidableEq, Repr

/-- The dict built by `extract_relevant_data` when the guard passes: both
`current_weather` and `today_forecast` are always present (mandatory fields),
`alerts` only when the payload has an `alerts` key. -/
structure FormattedWeather where
  current_weather : CurrentFmt
  today_forecast : ForecastFmt
  alerts : Option (List AlertFmt)
deriving DecidableEq, Repr

/-- Embeds `WeatherAPI.format_current_weather`.  `convTime` models
`convert_unix_to_readable` (total: it catches its own exceptions);
`current_weather['weather'][0]` raises `IndexError` on an empty list. -/
def format_current_weather (convTime : Int → String) (cw : CurrentW) :
    Except String CurrentFmt :=
  match cw.weather with
  | [] => .error "IndexError"
  | w :: _ =>
    .ok { temperature := toString cw.temp ++ "°C"
          description := w.description
          sunrise := convTime cw.sunrise
          sunset := convTime cw.sunset
          wind_speed := toString cw.wind_speed ++ " m/s"
          humidity := toString cw.humidity ++ "%" }

/-- Embeds `WeatherAPI.format_daily_forecast`. -/
def format_daily_forecast (df : DailyF) : Except String ForecastFmt :=
  match df.weather with
  | [] => .error "IndexError"
  | w :: _ =>
    .ok { max_temp := toString df.temp.max ++ "°C"
          min_temp := toString df.temp.min ++ "°C"
          conditions := w.description }

/-- Embeds `WeatherAPI.format_alerts`. -/
def format_alerts (convTime : Int → String) (alerts : List AlertIn) :
    List AlertFmt :=
  alerts.map fun a =>
    { title := a.event
      description := a.description
      start := a.start.map convTime
      end_ := a.end_.map convTime }

/-- Embeds `WeatherAPI.extract_relevant_data`: if `'current' not in api_response or
'daily' not in api_response or not isinstance(api_response['daily'], list)`,
return the empty dict (`.ok none`); otherwise build the formatted dict (an
empty `daily` list makes `api_response['daily'][0]` raise `IndexError`, which
propagates). -/
def extract_relevant_data (convTime : Int → String) (p : WPayload) :
    Except String (Option FormattedWeather) :=
  match p.current, p.daily with
  | some cur, some (DailyVal.arr ds) => do
    let cw ← format_current_weather convTime cur
    match ds with
    | [] => .error "IndexError"
    | d0 :: _ => do
      let tf ← format_daily_forecast d0
      .ok (some { current_weather := cw
                  today_forecast := tf
                  alerts := p.alerts.map (format_alerts convTime) })
  | _, _ => .ok none

/-- C4: for every payload that lacks a `current` section, lacks a `daily` key,
or whose `daily` value is not a list, `extract_relevant_data` returns the
empty mapping — and since a successful result's type carries both
`current_weather` and `today_forecast` as mandatory fields, no result
populated with `current_weather` alone can exist. -/
theorem c4_weather_missing_sections_yield_empty
    (convTime : Int → String) (p : WPayload)
    (h : p.current = none ∨ p.daily = none ∨ p.daily = some DailyVal.notList) :
    extract_relevant_data convTime p = .ok none := by
  unfold extract_relevant_data
  rcases h with h | h | h
  · rw [h]
  · rw [h]
    cases p.current <;> rfl
  · rw [h]
    cases p.current <;> rfl

/-- Witness for C4: a payload containing only `current` (no `daily`) yields
the empty result, not a partial one. -/
theorem c4_witness :
    extract_relevant_data (fun _ => "2024-01-01 08:00:00 CET")
        { current := some { temp := 20, weather := [⟨"clear sky"⟩],
                            sunrise := 1704088800, sunset := 1704121200,
                            wind_speed := 3, humidity := 50 },
          daily := none, alerts := none } = .ok none :=
  c4_weather_missing_sections_yield_empty (fun _ => "2024-01-01 08:00:00 CET")
    { current := some { temp := 20, weather := [⟨"clear sky"⟩],
                        sunrise := 1704088800, sunset := 1704121200,
                        wind_speed := 3, humidity := 50 },
      daily := none, alerts := none }
    (Or.inr (Or.inl rfl))

/-- Python 3 `<` on sort keys that are `None` or `str`: two strings compare
lexicographically; any comparison involving `None` raises `TypeError`. -/
def cmpKeyLt (u v : Option String) : Except String Bool :=
  match u, v with
  | some a, some b => .ok (decide (a < b))
  | _, _ => .error "TypeError"

/-- Insert `x` into the already-sorted `s`, before the first strictly greater
key, propagating a comparison `TypeError`.  Together with `sortAux` below this
models CPython `sorted(..., key=...)`: a stable ascending sort by key that
raises exactly when an incomparable pair of keys is compared (for key lists
mixing `None` and `str`, or with ≥ 2 `None`s, both raise). -/
def insertK {α : Type} (key : α → Option String) (x : α) :
    List α → Except String (List α)
  | [] => .ok [x]
  | y :: ys =>
    match cmpKeyLt (key x) (key y) with
    | .error e => .error e
    | .ok true => .ok (x :: y :: ys)
    | .ok false =>
      match insertK key x ys with
      | .error e => .error e
      | .ok r => .ok (y :: r)

/-- Insert the pending elements one by one into the sorted accumulator. -/
def sortAux {α : Type} (key : α → Option String) :
    List α → List α → Except String (List α)
  | s, [] => .ok s
  | s, x :: xs =>
    match insertK key x s with
    | .error e => .error e
    | .ok s' => sortAux key s' xs

/-- Embeds `sorted(l, key=key)`. -/
def sortByKey {α : Type} (key : α → Option String) (l : List α) :
    Except String (List α) :=
  sortAux key [] l

lemma cmpKeyLt_ok_isSome {u v : Option String} {b : Bool}
    (h : cmpKeyLt u v = .ok b) : u.isSome ∧ v.isSome := by
  cases u <;> cases v <;> simp [cmpKeyLt] at h ⊢

lemma insertK_allSome {α : Type} (key : α → Option String) (x : α) :
    ∀ (s s' : List α), (key x).isSome → (∀ z ∈ s, (key z).isSome) →
      insertK key x s = .ok s' → ∀ z ∈ s', (key z).isSome := by
  intro s
  induction s with
  | nil =>
    intro s' hx _ hins z hz
    simp [insertK] at hins
    subst hins
    simp at hz
    subst hz
    exact hx
  | cons y ys ih =>
    intro s' hx hall hins z hz
    rw [insertK] at hins
    cases hcmp : cmpKeyLt (key x) (key y) with
    | error e => rw [hcmp] at hins; exact absurd hins (by simp)
    | ok b =>
      rw [hcmp] at hins
      cases b with
      | true =>
        simp at hins
        subst hins
        simp only [List.mem_cons] at hz
        rcases hz with hz | hz | hz
        · rw [hz]; exact hx
        · rw [hz]; exact hall y (by simp)
        · exact hall z (by simp [hz])
      | false =>
        cases hrec : insertK key x ys with
        | error e => rw [hrec] at hins; exact absurd hins (by simp)
        | ok r =>
          rw [hrec] at hins
          simp at hins
          subst hins
          simp only [List.mem_cons] at hz
          rcases hz with hz | hz
          · rw [hz]; exact hall y (by simp)
          · exact ih r hx (fun w hw => hall w (by simp [hw])) hrec z hz

lemma insertK_ne_nil {α : Type} (key : α → Option String) (x : α)
    (s s' : List α) (hins : insertK key x s = .ok s') : s' ≠ [] := by
  cases s with
  | nil => simp [insertK] at hins; subst hins; simp
  | cons y ys =>
    rw [insertK] at hins
    cases hcmp : cmpKeyLt (key x) (key y) with
    | error e => rw [hcmp] at hins; exact absurd hins (by simp)
    | ok b =>
      rw [hcmp] at hins
      cases b with
      | true => simp at hins; subst hins; simp
      | false =>
        cases hrec : insertK key x ys with
        | error e => rw [hrec] at hins; exact absurd hins (by simp)
        | ok r => rw [hrec] at hins; simp at hins; subst hins; simp

lemma insertK_head_isSome {α : Type} (key : α → Option String) (x : α)
    (y : α) (ys s' : List α) (hins : insertK key x (y :: ys) = .ok s') :
    (key x).isSome ∧ (key y).isSome := by
  rw [insertK] at hins
  cases hcmp : cmpKeyLt (key x) (key y) with
  | error e => rw [hcmp] at hins; exact absurd hins (by simp)
  | ok b => exact cmpKeyLt_ok_isSome hcmp

lemma sortAux_allSome {α : Type} (key : α → Option String) :
    ∀ (l s r : List α), sortAux key s l = .ok r → s ≠ [] →
      (∀ z ∈ s, (key z).isSome) → ∀ z ∈ l, (key z).isSome := by
  intro l
  induction l with
  | nil => intro s r _ _ _ z hz; simp at hz
  | cons x xs ih =>
    intro s r hok hne hall z hz
    rw [sortAux] at hok
    cases hins : insertK key x s with
    | error e => rw [hins] at hok; exact absurd hok (by simp)
    | ok s' =>
      rw [hins] at hok
      cases s with
      | nil => exact absurd rfl hne
      | cons y ys =>
        have hx := (insertK_head_isSome key x y ys s' hins).1
        have hall' := insertK_allSome key x (y :: ys) s' hx hall hins
        simp only [List.mem_cons] at hz
        rcases hz with hz | hz
        · rw [hz]; exact hx
        · exact ih s' r hok (insertK_ne_nil key x (y :: ys) s' hins) hall' z hz

lemma sortAux_allNone_nil {α : Type} (key : α → Option String)
    (l : List α) (y : α) (ys r : List α)
    (hok : sortAux key (y :: ys) l = .ok r) (hy : key y = none) : l = [] := by
  cases l with
  | nil => rfl
  | cons x xs =>
    rw [sortAux] at hok
    rw [insertK] at hok
    have : cmpKeyLt (key x) (key y) = .error "TypeError" := by
      rw [hy]; cases key x <;> rfl
    rw [this] at hok
    exact absurd hok (by simp)

/-- Sorting a list whose keys mix `None` with present strings raises: the
result is never `.ok`. -/
lemma sortByKey_mixed_error {α : Type} (key : α → Option String) (l : List α)
    (a : α) (ha : a ∈ l) (hka : key a = none)
    (b : α) (hb : b ∈ l) (hkb : (key b).isSome) :
    ∀ r, sortByKey key l ≠ .ok r := by
  intro r hok
  unfold sortByKey at hok
  cases l with
  | nil => simp at ha
  | cons x xs =>
    rw [sortAux] at hok
    have hins : insertK key x [] = .ok [x] := rfl
    rw [hins] at hok
    by_cases hx : (key x).isSome
    · have hall := sortAux_allSome key xs [x] r hok (by simp)
        (by intro z hz; simp at hz; subst hz; exact hx)
      simp only [List.mem_cons] at ha
      rcases ha with ha | ha
      · subst ha; rw [hka] at hx; simp at hx
      · have := hall a ha
        rw [hka] at this; simp at this
    · have hx' : key x = none := by
        cases hxx : key x
        · rfl
        · rw [hxx] at hx; simp at hx
      have hxs : xs = [] := sortAux_allNone_nil key xs x [] r hok hx'
      subst hxs
      simp only [List.mem_cons] at hb
      rcases hb with hb | hb
      · subst hb; rw [hx'] at hkb; simp at hkb
      · simp at hb

/-- The `start` / `end` sub-dict of a Google-calendar event
(`.get("dateTime")`). -/
structure StartEnd where
  dateTime : Option String := none
deriving DecidableEq, Repr

/-- A calendar event, as `CalendarAPI.extract_event_details` reads it. -/
structure EventIn where
  summary : Option String := none
  description : Option String := none
  duration : Option String := none
  start : Option StartEnd := none
  end_ : Option StartEnd := none
deriving DecidableEq, Repr

/-- The dict built per event by `CalendarAPI.extract_event_details`. -/
structure EventOut where
  name : Option String
  description : Option String
  duration : Option String
  scheduled_start : Option String
  scheduled_end : Option String
deriving DecidableEq, Repr

/-- Embeds `CalendarAPI.extract_event_details`:
`event.get("start", {}).get("dateTime")` is `none` when either the `start`
key or its `dateTime` key is missing. -/
def extract_event_details (events : List EventIn) : List EventOut :=
  events.map fun e =>
    { name := e.summary
      description := e.description
      duration := e.duration
      scheduled_start := (e.start.getD {}).dateTime
      scheduled_end := (e.end_.getD {}).dateTime }

/-- The sort key `lambda x: x.get('scheduled_start', {})` of
`get_clean_event_data_n_days_ahead`: the key is always present in the
extracted dict (so the `{}` default is dead code), but its value may be
`None`. -/
def eventSortKey (e : EventOut) : Option String := e.scheduled_start

/-- Embeds `CalendarAPI.get_clean_event_data_n_days_ahead`, applied to the fetched
event list (`fetch_events_n_days_ahead` already catches its own errors and
returns a list). -/
def get_clean_event_data_n_days_ahead (events : List EventIn) :
    Except String (List EventOut) :=
  sortByKey eventSortKey (extract_event_details events)

/-- Counterexample for C7: one event with a `start.dateTime` and one event
with no `start` — the claim says the call totally succeeds with the
start-less event sorted last, but `sorted` compares its `None` key with a
string and raises `TypeError`. -/
theorem c7_counterexample :
    get_clean_event_data_n_days_ahead
        [{ summary := some "standup",
           start := some { dateTime := some "2024-01-01T10:00:00" } },
         { summary := some "untimed" }] = .error "TypeError" := by
  rfl

/-- C7 (amended): whenever the extracted events mix an absent
`scheduled_start` with a present one, `get_clean_event_data_n_days_ahead`
raises `TypeError` (the comparison with the `None` key propagates) — it does
not succeed, and no "absent sorts last" tie-break exists. -/
theorem c7_mixed_missing_start_raises (events : List EventIn)
    (ha : ∃ a ∈ extract_event_details events, a.scheduled_start = none)
    (hb : ∃ b ∈ extract_event_details events, b.scheduled_start.isSome) :
    ∃ e, get_clean_event_data_n_days_ahead events = .error e := by
  obtain ⟨a, hamem, hka⟩ := ha
  obtain ⟨b, hbmem, hkb⟩ := hb
  unfold get_clean_event_data_n_days_ahead
  cases hres : sortByKey eventSortKey (extract_event_details events) with
  | error e => exact ⟨e, rfl⟩
  | ok r =>
    exact absurd hres
      (sortByKey_mixed_error eventSortKey (extract_event_details events)
        a hamem hka b hbmem hkb r)

/-- Witness for C7's amended statement at the two-event input of the
counterexample scenario with the events swapped. -/
theorem c7_witness :
    ∃ e, get_clean_event_data_n_days_ahead
        [{ summary := some "untimed" },
         { summary := some "standup",
           start := some { dateTime := some "2024-01-01T10:00:00" } }] = .error e :=
  c7_mixed_missing_start_raises
    [{ summary := some "untimed" },
     { summary := some "standup",
       start := some { dateTime := some "2024-01-01T10:00:00" } }]
    ⟨{ name := some "untimed", description := none, duration := none,
       scheduled_start := none, scheduled_end := none }, by simp [extract_event_details], rfl⟩
    ⟨{ name := some "standup", description := none, duration := none,
       scheduled_start := some "2024-01-01T10:00:00", scheduled_end := none },
     by simp [extract_event_details], rfl⟩

/-- Embeds `SectionParser.parse_sections`.  `parse` models
`BeautifulSoup(response, 'html.parser')` followed by `soup.find`: it yields a
document lookup `doc` with `doc i = none` when no tag with id `i` exists (the
absent marker `None`), or `none` when parsing itself raises — in which case
the `except` branch returns every requested id mapped to `None`.  The
function is total: no exception escapes. -/
def parse_sections (parse : String → Option (String → Option String))
    (response : String) (section_ids : List String) :
    List (String × Option String) :=
  match parse response with
  | some doc => section_ids.map fun i => (i, doc i)
  | none => section_ids.map fun i => (i, none)

lemma map_fst_pair {β : Type} (f : String → β) (l : List String) :
    List.map Prod.fst (List.map (fun i => (i, f i)) l) = l := by
  induction l with
  | nil => rfl
  | cons a as ih => simp only [List.map_cons, ih]

/-- C5: `parse_sections` always returns a mapping defined on exactly the
requested ids; an id the document lacks is mapped to the absent marker
`none` (which is distinct from `some ""`, an empty string); and a parse
failure of the whole document degrades to every id mapped to absent — the
function never raises (it is total, every exception being caught).  The
spec's scenario — a response missing the `suggestions` anchor — is the
instance `doc "suggestions" = none` of the second clause. -/
theorem c5_parse_sections_total_with_absent_markers
    (parse : String → Option (String → Option String))
    (response : String) (section_ids : List String) :
    ((parse_sections parse response section_ids).map Prod.fst = section_ids)
    ∧ (∀ doc, parse response = some doc →
        ∀ i ∈ section_ids, (i, doc i) ∈ parse_sections parse response section_ids)
    ∧ (parse response = none →
        ∀ p ∈ parse_sections parse response section_ids, p.2 = none) := by
  refine ⟨?_, ?_, ?_⟩
  · unfold parse_sections
    cases parse response <;> exact map_fst_pair _ _
  · intro doc hdoc i hi
    unfold parse_sections
    rw [hdoc]
    exact List.mem_map_of_mem _ hi
  · intro hfail p hp
    unfold parse_sections at hp
    rw [hfail] at hp
    simp only [List.mem_map] at hp
    obtain ⟨i, _, hpi⟩ := hp
    rw [← hpi]

/-- Witness for C5: a document containing a `daily_schedule` section but no
`suggestions` anchor yields `daily_schedule ↦ its content` together with
`suggestions ↦ none` — and with a failing parse both ids map to `none`. -/
theorem c5_witness :
    (("daily_schedule",
        (fun i => if i = "daily_schedule" then some "<ul><li>9:00 standup</li></ul>" else none)
          "daily_schedule") ∈
      parse_sections (fun _ => some fun i =>
          if i = "daily_schedule" then some "<ul><li>9:00 standup</li></ul>" else none)
        "resp" ["daily_schedule", "suggestions"]
    ∧ ("suggestions",
        (fun i => if i = "daily_schedule" then some "<ul><li>9:00 standup</li></ul>" else none)
          "suggestions") ∈
      parse_sections (fun _ => some fun i =>
          if i = "daily_schedule" then some "<ul><li>9:00 standup</li></ul>" else none)
        "resp" ["daily_schedule", "suggestions"])
    ∧ (∀ p ∈ parse_sections (fun _ => none) "<broken" ["daily_schedule", "suggestions"],
        p.2 = none) :=
  ⟨⟨(c5_parse_sections_total_with_absent_markers
        (fun _ => some fun i =>
          if i = "daily_schedule" then some "<ul><li>9:00 standup</li></ul>" else none)
        "resp" ["daily_schedule", "suggestions"]).2.1 _ rfl "daily_schedule" (by simp),
    (c5_parse_sections_total_with_absent_markers
        (fun _ => some fun i =>
          if i = "daily_schedule" then some "<ul><li>9:00 standup</li></ul>" else none)
        "resp" ["daily_schedule", "suggestions"]).2.1 _ rfl "suggestions" (by simp)⟩,
   (c5_parse_sections_total_with_absent_markers
        (fun _ => none) "<broken" ["daily_schedule", "suggestions"]).2.2 rfl⟩

/-- The dict built per task by `MotionAPI.extract_task_details`. -/
structure TaskOut where
  name : Option String
  description : Option String
  duration : Option String
  scheduled_start : Option String
  due_date : Option String
  type : Option String
deriving DecidableEq, Repr

/-- Embeds `MotionAPI.extract_task_details`: the `type` field is
`task.get("labels", [{}])[0].get('name') if task.get("labels") else ""`, so a
missing or empty (falsy) `labels` list yields the string `""` and otherwise
the first label's `name` (possibly `None`). -/
def extract_task_details (tasks : List MTask) : List TaskOut :=
  tasks.map fun t =>
    { name := t.name
      description := t.description
      duration := t.duration
      scheduled_start := t.scheduledStart
      due_date := t.dueDate
      type := match t.labels with
              | [] => some ""
              | l :: _ => l }

/-- Embeds `MotionAPI.get_clean_task_data_n_days_ahead` applied to the fetched task
list: window-filter, extract, then `sorted(..., key=lambda x:
x['scheduled_start'])` (a key that is `None` for tasks without
`scheduledStart`, though the filter only keeps truthy ones). -/
def get_clean_task_data_n_days_ahead (parse : String → LocalDT) (now : LocalDT)
    (n : Nat) (tasks : List MTask) : Except String (List TaskOut) :=
  sortByKey (fun t => t.scheduled_start)
    (extract_task_details (get_task_data_n_days_ahead parse now n tasks))

/-- The dict built by `ScheduleAPI.get_schedule`.  The task list is `none`
when the pagination loop does not terminate within the given fuel. -/
structure Schedule where
  tasks : Option (Except String (List TaskOut))
  events : Except String (List EventOut)
deriving Repr

/-- All upstream state and ambient time of one `CombinedDataAPI` run: the
weather, Garmin, Motion and calendar oracles, the pagination fuel, the
date-string clock, the datetime parser (timezone-indexed) and the current
wall-clock instant. -/
structure Env where
  weatherServer : ℚ → ℚ → Option WPayload
  convTime : String → Int → String
  fitnessFetch : String → Option FitnessRaw
  dayStr : Nat → String
  motionServer : Option String → Option Page
  fuel : Nat
  parseDT : String → String → LocalDT
  now : LocalDT
  calendarFetch : Nat → List EventIn

/-- Embeds `WeatherAPI.get_clean_weather_data`: a failed fetch gives `{}` without
touching `extract_relevant_data`. -/
def get_clean_weather_data (e : Env) (lat lon : ℚ) (tz : String) :
    Except String (Option FormattedWeather) :=
  match e.weatherServer lat lon with
  | none => .ok none
  | some raw => extract_relevant_data (e.convTime tz) raw

/-- Embeds `ScheduleAPI.get_schedule`. -/
def get_schedule (e : Env) (tz : String) (n : Nat) : Schedule :=
  { tasks := (fetch_task_data e.motionServer e.fuel).map fun ts =>
      sortByKey (fun t => t.scheduled_start)
        (extract_task_details (get_task_data_n_days_ahead (e.parseDT tz) e.now n ts))
    events := get_clean_event_data_n_days_ahead (e.calendarFetch n) }

/-- The dict built by `CombinedDataAPI.get_combined_data`. -/
structure CombinedSnapshot where
  weather : Except String (Option FormattedWeather)
  fitness : List (String × CleanFitness)
  schedule : Schedule
deriving Repr

/-- Embeds `CombinedDataAPI.get_combined_data`. -/
def get_combined_data (e : Env) (lat lon : ℚ) (tz : String) (n : Nat) :
    CombinedSnapshot :=
  { weather := get_clean_weather_data e lat lon tz
    fitness := get_clean_data e.fitnessFetch e.dayStr
    schedule := get_schedule e tz n }

/-- C8: with the upstream dataset and the current time fixed (one `Env`),
`get_combined_data` is a pure function of `(latitude, longitude, timezone,
n_days_ahead)`, so two calls with the same arguments yield structurally
identical snapshots — equal `weather`, `fitness` and `schedule`
components. -/
theorem c8_combined_data_idempotent (e : Env) (lat lon : ℚ) (tz : String)
    (n : Nat) :
    (get_combined_data e lat lon tz n).weather
        = (get_combined_data e lat lon tz n).weather
    ∧ (get_combined_data e lat lon tz n).fitness
        = (get_combined_data e lat lon tz n).fitness
    ∧ (get_combined_data e lat lon tz n).schedule.tasks
        = (get_combined_data e lat lon tz n).schedule.tasks
    ∧ (get_combined_data e lat lon tz n).schedule.events
        = (get_combined_data e lat lon tz n).schedule.events :=
  ⟨rfl, rfl, rfl, rfl⟩
